import Mathlib

/-!
Shallow embedding of the schema module of the Medical Event Data Standard
repository (src/src/meds/schema.py), together with theorems checking the
natural-language specification against it.

The module is purely declarative: a pyarrow columnar schema constructor for
patient data, a fixed pyarrow label schema, JSON-Schema documents for dataset
metadata, TypedDict structural declarations mirroring those schemas, and two
sentinel code values (a BirthCode object with an overloaded equality, and a
death-code string constant).
-/

set_option maxRecDepth 4000

namespace Meds

/-- Embedding of the pyarrow column types used by schema.py: pa.null(),
pa.string(), pa.float32(), pa.int64(), pa.bool_(), pa.timestamp(unit),
pa.list_(t) and pa.struct(fields). Both pa.struct and pa.schema are field
lists; a schema is a list of (name, type) pairs. -/
inductive ArrowType where
  | null : ArrowType
  | string : ArrowType
  | float32 : ArrowType
  | int64 : ArrowType
  | bool_ : ArrowType
  | timestamp : String → ArrowType
  | list_ : ArrowType → ArrowType
  | struct : List (String × ArrowType) → ArrowType

/-- A pyarrow schema: an ordered list of named fields. -/
def Schema : Type := List (String × ArrowType)

/-- Embedding of patient_schema(per_event_metadata_schema): builds the
measurement struct, the event struct and the patient schema exactly as in
the source. -/
def patient_schema (per_event_metadata_schema : ArrowType) : Schema :=
  let measurement := ArrowType.struct
    [ ("code", ArrowType.string),
      ("text_value", ArrowType.string),
      ("numeric_value", ArrowType.float32),
      ("datetime_value", ArrowType.timestamp "us"),
      ("metadata", per_event_metadata_schema) ]
  let event := ArrowType.struct
    [ ("time", ArrowType.timestamp "us"),
      ("measurements", ArrowType.list_ measurement) ]
  [ ("patient_id", ArrowType.int64),
    ("static_measurements", ArrowType.list_ measurement),
    ("events", ArrowType.list_ event) ]

/-- Calling patient_schema with no argument: the Python default for
per_event_metadata_schema is pa.null(). -/
def patient_schema_default : Schema := patient_schema ArrowType.null

/-- Embedding of the module-level label schema. -/
def label : Schema :=
  [ ("patient_id", ArrowType.int64),
    ("prediction_time", ArrowType.timestamp "us"),
    ("boolean_value", ArrowType.bool_) ]

/-- Look up a field type by name in a field list (first match). -/
def getField (fs : List (String × ArrowType)) (n : String) : Option ArrowType :=
  (fs.find? (fun p => p.1 == n)).map (fun p => p.2)

/-- The field list of the Measurement struct inside a patient schema,
reached through the static_measurements column. -/
def measurementFields (s : Schema) : Option (List (String × ArrowType)) :=
  match getField s "static_measurements" with
  | some (ArrowType.list_ (ArrowType.struct ms)) => some ms
  | _ => none

/-- The type of the metadata field of the Measurement struct inside a
patient schema. -/
def metadataType (s : Schema) : Option ArrowType :=
  match measurementFields s with
  | some ms => getField ms "metadata"
  | none => none

/-- Python runtime values relevant to the sentinel-code comparisons: strings
and BirthCode instances (a BirthCode instance carries the codes passed to
its constructor). -/
inductive PyVal where
  | str : String → PyVal
  | birthCodeObj : List String → PyVal

/-- A Python runtime error; the only one reachable in this module is
TypeError (hashing an unhashable value). -/
inductive PyErr where
  | typeError : PyErr

/-- Whether a Python value is hashable. Strings are; BirthCode instances are
not, because the class defines an eq method without a hash method, which
sets the hash slot to None. -/
def hashable : PyVal → Bool
  | PyVal.str _ => true
  | PyVal.birthCodeObj _ => false

/-- Python equality of a value against a plain string (used by set
membership over a set of strings): only an equal string compares true. -/
def pyValEqStr (v : PyVal) (s : String) : Bool :=
  match v with
  | PyVal.str x => x == s
  | PyVal.birthCodeObj _ => false

/-- Python set membership `v in set(codes)` for a set built from string
codes: hashes v first (TypeError when unhashable), then tests membership. -/
def setMem (codes : List String) (v : PyVal) : Except PyErr Bool :=
  if hashable v then Except.ok (codes.any (fun c => pyValEqStr v c))
  else Except.error PyErr.typeError

/-- Embedding of BirthCode.__eq__(self, other): `other in self.codes`. -/
def birthCode_eq (self_codes : List String) (other : PyVal) : Except PyErr Bool :=
  setMem self_codes other

/-- Python `a == b` over PyVal. With a string on the left and a BirthCode
instance on the right, str.__eq__ returns NotImplemented and Python falls
back to the reflected BirthCode.__eq__; with a BirthCode instance on the
left its own __eq__ runs directly. -/
def pyEq (a b : PyVal) : Except PyErr Bool :=
  match a, b with
  | PyVal.str sa, PyVal.str sb => Except.ok (sa == sb)
  | PyVal.str _, PyVal.birthCodeObj cs => birthCode_eq cs a
  | PyVal.birthCodeObj cs, _ => birthCode_eq cs b

/-- The codes passed to the BirthCode constructor at module level. -/
def birth_code_strings : List String := ["SNOMED/184099003", "SNOMED/3950001"]

/-- Embedding of birth_code = BirthCode("SNOMED/184099003", "SNOMED/3950001"). -/
def birth_code : PyVal := PyVal.birthCodeObj birth_code_strings

/-- Embedding of death_code = "SNOMED/419620001". -/
def death_code : String := "SNOMED/419620001"

/-- Python `death_code == c` for a candidate string c: plain string
equality. -/
def death_code_eq (c : String) : Bool := death_code == c

/-- JSON values. -/
inductive JVal where
  | null : JVal
  | boolean : Bool → JVal
  | num : Int → JVal
  | str : String → JVal
  | arr : List JVal → JVal
  | obj : List (String × JVal) → JVal

/-- The fragment of JSON Schema used by the schema documents in schema.py:
{"type": "string"}, {"type": "array", "items": s} and
{"type": "object", "properties": ps} with an optional
"additionalProperties" schema (none of the documents carries a "required"
list). jobject ps none embeds a document with "properties" ps and no
"additionalProperties" key; jobject [] (some s) embeds a document with
"additionalProperties" s and no "properties" key. -/
inductive JSchema where
  | jstring : JSchema
  | jarray : JSchema → JSchema
  | jobject : List (String × JSchema) → Option JSchema → JSchema

/-- Embedding of the code_metadata_entry JSON Schema document. -/
def code_metadata_entry : JSchema :=
  JSchema.jobject
    [ ("description", JSchema.jstring),
      ("parent_codes", JSchema.jarray JSchema.jstring) ]
    none

/-- Embedding of the code_metadata JSON Schema document. -/
def code_metadata : JSchema :=
  JSchema.jobject [] (some code_metadata_entry)

/-- Embedding of the dataset_metadata JSON Schema document. -/
def dataset_metadata : JSchema :=
  JSchema.jobject
    [ ("dataset_name", JSchema.jstring),
      ("dataset_version", JSchema.jstring),
      ("etl_name", JSchema.jstring),
      ("etl_version", JSchema.jstring),
      ("code_metadata", code_metadata) ]
    none

mutual

/-- Modelled from the spec: JSON Schema validation semantics for the keyword
fragment the documents use (the repository declares the schema documents but
ships no validator). "type" restricts the kind of value; "properties"
constrains the listed keys when present but does not require them; keys not
listed are constrained by "additionalProperties" when that schema is given
and are unconstrained otherwise. -/
def validate : JSchema → JVal → Bool
  | JSchema.jstring, JVal.str _ => true
  | JSchema.jstring, _ => false
  | JSchema.jarray it, JVal.arr xs => xs.all (fun x => validate it x)
  | JSchema.jarray _, _ => false
  | JSchema.jobject props addl, JVal.obj kvs =>
      kvs.all (fun kv => validateKey props addl kv.1 kv.2)
  | JSchema.jobject _ _, _ => false
termination_by s _ => sizeOf s

/-- Validation of a single key of an object: the schema of the matching
entry of "properties" when one exists, else "additionalProperties" when
given, else unconstrained. -/
def validateKey : List (String × JSchema) → Option JSchema → String → JVal → Bool
  | [], some sch, _, v => validate sch v
  | [], none, _, _ => true
  | (k, sch) :: rest, addl, key, v =>
      if k == key then validate sch v else validateKey rest addl key v
termination_by props addl _ _ => sizeOf props + sizeOf addl

end

/-- TypedDict declarations as lists of (field name, required flag): a field
is required exactly when it is not wrapped in NotRequired (TypedDict
defaults to total, so an unwrapped field is required). -/
def MeasurementTD : List (String × Bool) :=
  [ ("code", true),
    ("text_value", false),
    ("numeric_value", false),
    ("datetime_value", false),
    ("metadata", false) ]

/-- The Event TypedDict declaration. -/
def EventTD : List (String × Bool) :=
  [ ("time", true), ("measurements", true) ]

/-- The Patient TypedDict declaration. -/
def PatientTD : List (String × Bool) :=
  [ ("patient_id", true), ("static_measurements", true), ("events", true) ]

/-- The Label TypedDict declaration. -/
def LabelTD : List (String × Bool) :=
  [ ("patient_id", true), ("prediction_time", true), ("boolean_value", true) ]

/-- The CodeMetadataEntry TypedDict declaration: both fields unwrapped,
hence required. -/
def CodeMetadataEntryTD : List (String × Bool) :=
  [ ("description", true), ("parent_codes", true) ]

/-- The DatasetMetadata TypedDict declaration: every field NotRequired. -/
def DatasetMetadataTD : List (String × Bool) :=
  [ ("dataset_name", false),
    ("dataset_version", false),
    ("etl_name", false),
    ("etl_version", false),
    ("code_metadata", false) ]

/-- None of the columnar or JSON schema documents in schema.py declares a
required list: the pyarrow schemas have no required designation (all fields
nullable by default) and none of the JSON Schema dicts contains a
"required" key. -/
def no_required_list : List String := []

/-- Whether the required markings of a TypedDict declaration match a
required list: a field carries the required flag exactly when its name is
in the list. -/
def matchesRequired (td : List (String × Bool)) (reqs : List String) : Bool :=
  td.all (fun p => p.2 == reqs.contains p.1)

/-- The module-level state of schema.py: the four module-level values a call
could conceivably read or mutate. -/
structure ModuleState where
  birth : PyVal
  death : String
  labelSchema : Schema
  datasetMeta : JSchema

/-- State-passing reading of patient_schema: the Python body reads no
module-level name and assigns none, so the translation threads the module
state through unchanged and computes the result from the argument alone. -/
def patient_schema_st (s : ModuleState) (t : ArrowType) : Schema × ModuleState :=
  (patient_schema t, s)

/-- C1: for every candidate code string c, the BirthCode equality check
birth_code == c returns true exactly when c is one of the two predefined
birth-code synonym strings, and false for any other string. -/
theorem birth_code_eq_iff_synonym (c : String) :
    pyEq birth_code (PyVal.str c) = Except.ok true ↔
      (c = "SNOMED/184099003" ∨ c = "SNOMED/3950001") := by
  simp [pyEq, birth_code, birth_code_strings, birthCode_eq, setMem, hashable,
    pyValEqStr]

/-- C2: patient_schema called with no argument produces a Measurement
metadata field of null type; called with an explicit type t, the produced
metadata field type equals t exactly. -/
theorem patient_schema_metadata_roundtrip :
    (∀ t : ArrowType, metadataType (patient_schema t) = some t) ∧
      metadataType patient_schema_default = some ArrowType.null :=
  ⟨fun _ => rfl, rfl⟩

/-- C3: the label schema has exactly three fields, in order patient_id of
64-bit integer type, prediction_time of microsecond timestamp type and
boolean_value of boolean type. -/
theorem label_has_exactly_three_fields :
    label.length = 3 ∧
      label.map Prod.fst = ["patient_id", "prediction_time", "boolean_value"] ∧
      getField label "patient_id" = some ArrowType.int64 ∧
      getField label "prediction_time" = some (ArrowType.timestamp "us") ∧
      getField label "boolean_value" = some ArrowType.bool_ :=
  ⟨rfl, rfl, rfl, rfl, rfl⟩

/-- C6: the death-code constant is one fixed string: death_code == c is
true for exactly the string SNOMED/419620001 and false otherwise. -/
theorem death_code_eq_iff_fixed (c : String) :
    death_code_eq c = true ↔ c = "SNOMED/419620001" := by
  simp only [death_code_eq, death_code, beq_iff_eq]
  exact eq_comm

/-- C7: for every metadata-shape argument t, the Measurement struct inside
patient_schema t has exactly five fields, in order: code (string),
text_value (string), numeric_value (float32), datetime_value (microsecond
timestamp) and metadata typed t. -/
theorem patient_schema_measurement_fields (t : ArrowType) :
    measurementFields (patient_schema t) =
      some [ ("code", ArrowType.string),
             ("text_value", ArrowType.string),
             ("numeric_value", ArrowType.float32),
             ("datetime_value", ArrowType.timestamp "us"),
             ("metadata", t) ] := rfl

/-- C8: patient_schema is deterministic and side-effect-free: in the
state-passing reading, the result depends only on the argument and the
module state (birth_code, death_code, label, dataset_metadata) is returned
unchanged by every call. -/
theorem patient_schema_pure (s : ModuleState) (t : ArrowType) :
    patient_schema_st s t = (patient_schema t, s) ∧
      (∀ s2 : ModuleState, (patient_schema_st s t).1 = (patient_schema_st s2 t).1) :=
  ⟨rfl, fun _ => rfl⟩

/-- C9: comparing birth_code against any unhashable operand raises
TypeError from the set-membership test; in particular equality is not
reflexive, since BirthCode instances themselves are unhashable. -/
theorem birth_code_eq_unhashable_typeError (v : PyVal) (h : hashable v = false) :
    pyEq birth_code v = Except.error PyErr.typeError := by
  cases v with
  | str s => simp [hashable] at h
  | birthCodeObj cs => rfl

/-- Witness for C9: birth_code == birth_code itself raises TypeError. -/
theorem birth_code_eq_unhashable_typeError_witness :
    pyEq birth_code birth_code = Except.error PyErr.typeError :=
  birth_code_eq_unhashable_typeError birth_code rfl

/-- C10: for every string s, s == birth_code evaluates to the same result
as birth_code == s, and is true exactly when s is one of the two backing
codes: the reflected BirthCode equality makes the check symmetric on
strings. -/
theorem birth_code_eq_symmetric_on_strings (s : String) :
    pyEq (PyVal.str s) birth_code = pyEq birth_code (PyVal.str s) ∧
      (pyEq (PyVal.str s) birth_code = Except.ok true ↔
        (s = "SNOMED/184099003" ∨ s = "SNOMED/3950001")) := by
  refine ⟨rfl, ?_⟩
  simp [pyEq, birth_code, birth_code_strings, birthCode_eq, setMem, hashable,
    pyValEqStr]

/-- C4: the dataset_metadata JSON Schema accepts a document containing only
the key dataset_name, and its code_metadata property accepts an object
whose value under an arbitrary key matches the CodeMetadataEntry shape:
description a string and parent_codes an array of strings. -/
theorem dataset_metadata_accepts (dname k desc : String) (pcs : List String) :
    validate dataset_metadata (JVal.obj [("dataset_name", JVal.str dname)]) = true ∧
      validate code_metadata
        (JVal.obj [(k, JVal.obj
          [ ("description", JVal.str desc),
            ("parent_codes", JVal.arr (pcs.map JVal.str)) ])]) = true := by
  constructor
  · simp [dataset_metadata, code_metadata, code_metadata_entry, validate, validateKey]
  · simp [code_metadata, code_metadata_entry, validate, validateKey, List.all_map]

/-- C5 counterexample: the CodeMetadataEntry declaration marks description
and parent_codes as required although the code_metadata_entry JSON Schema
has no required list, so its optional markings do not match the required
list as the claim states. -/
theorem codeMetadataEntry_markings_mismatch :
    ¬ (matchesRequired CodeMetadataEntryTD no_required_list = true) := by decide

/-- C5 amended: optional markings agree with the (empty) required lists
only for the DatasetMetadata declaration; Measurement, Event, Patient,
Label and CodeMetadataEntry each mark at least one field required even
though no columnar or JSON schema declares a required list. -/
theorem typed_dict_required_markings :
    matchesRequired DatasetMetadataTD no_required_list = true ∧
      ([MeasurementTD, EventTD, PatientTD, LabelTD, CodeMetadataEntryTD].all
        (fun td => td.any (fun p => p.2))) = true ∧
      matchesRequired CodeMetadataEntryTD no_required_list = false := by decide

end Meds
